import Mathlib

set_option linter.unusedVariables false

/-!
Shallow embedding of the Content_Generation publication pipeline.

Sources embedded:
- src/app/models/base.py          (PlatformType, ContentType, TaskStatus, TaskResult,
                                   PublicationResult)
- src/app/models/accounts.py      (SiteWeb, AccountConfig, AccountMapping,
                                   create_default_accounts, validate_account_exists)
- src/app/models/platforms.py     (per-platform output models with their pydantic
                                   validators, modelled as fallible constructors)
- src/app/models/content.py       (PlatformContentConfig, EnhancedPublicationRequest,
                                   generate_images)
- src/app/orchestrator/workflow.py (the LangGraph orchestrator: the four nodes and
                                   the formatting / publication / finalization logic)
- src/app/agents/base_agent.py    (_create_success_result / _create_error_result)
- src/app/agents/publishers/twitter.py, facebook.py, instagram.py
                                  (publish_content incl. draft paths, draft stores,
                                   delete_twitter_draft / delete_instagram_draft)
- src/app/main.py                 (task_store registration, /status lookup,
                                   DELETE /drafts/draft_id, result conversion)

External collaborators (the LLM service, the social-network HTTP APIs, uuid and
JSON parsing of LLM responses) are modelled as explicit environment records that
are universally quantified in the theorems.  Python dicts are modelled as
insertion-ordered association lists with overwrite-on-insert, matching dict
assignment semantics.  Python string/list slicing and the `or` default idiom are
modelled by the py* helpers below.
-/

/-- Python dict lookup `m.get(k)` over an insertion-ordered association list. -/
def lookupAssoc {α : Type} (m : List (String × α)) (k : String) : Option α :=
  match m with
  | [] => none
  | p :: rest => if p.1 = k then some p.2 else lookupAssoc rest k

/-- Python `k in m` for a dict. -/
def containsKey {α : Type} (m : List (String × α)) (k : String) : Bool :=
  (lookupAssoc m k).isSome

/-- Python dict assignment `m[k] = v`: replaces the value in place when the key
exists, otherwise appends a new binding (dicts preserve insertion order). -/
def insertAssoc {α : Type} (m : List (String × α)) (k : String) (v : α) :
    List (String × α) :=
  if containsKey m k then m.map (fun p => if p.1 = k then (k, v) else p)
  else m ++ [(k, v)]

/-- Python string slice `s[:n]` for non-negative `n` (first `n` characters). -/
def pyStrTake (s : String) (n : Nat) : String :=
  String.mk (s.data.take n)

/-- Python list slice `xs[:n]`, including the negative-index convention. -/
def pyListTake {α : Type} (xs : List α) (n : Int) : List α :=
  if 0 ≤ n then xs.take n.toNat else xs.take (xs.length - n.natAbs)

/-- Python `x or d` for an optional int: `None` and `0` are falsy. -/
def pyOrInt (o : Option Int) (d : Int) : Int :=
  match o with
  | none => d
  | some n => if n = 0 then d else n

/-- Python `[f(i) for i in range(n)]` index list (empty for negative `n`). -/
def pyRange (n : Int) : List Nat :=
  List.range n.toNat

/-- Python str.startswith, computed on the character lists. -/
def pyStartsWith (s : String) (pre : String) : Bool :=
  pre.data.isPrefixOf s.data

-- === src/app/models/base.py ===

/-- models/base.py PlatformType -/
inductive PlatformType where
  | twitter
  | facebook
  | linkedin
  | instagram
deriving DecidableEq, Repr

/-- The string value of the PlatformType str-enum. -/
def PlatformType.value : PlatformType → String
  | .twitter => "twitter"
  | .facebook => "facebook"
  | .linkedin => "linkedin"
  | .instagram => "instagram"

/-- models/base.py ContentType -/
inductive ContentType where
  | post
  | story
  | carousel
deriving DecidableEq, Repr

/-- The string value of the ContentType str-enum. -/
def ContentType.value : ContentType → String
  | .post => "post"
  | .story => "story"
  | .carousel => "carousel"

/-- models/base.py TaskStatus -/
inductive TaskStatus where
  | pending
  | processing
  | completed
  | failed
deriving DecidableEq, Repr

/-- `PlatformType(s)` conversion: `none` models the `ValueError` branch. -/
def platformOfString (s : String) : Option PlatformType :=
  if s = "twitter" then some .twitter
  else if s = "facebook" then some .facebook
  else if s = "linkedin" then some .linkedin
  else if s = "instagram" then some .instagram
  else none

/-- `ContentType(s)` conversion: `none` models the `ValueError` branch. -/
def contentTypeOfString (s : String) : Option ContentType :=
  if s = "post" then some .post
  else if s = "story" then some .story
  else if s = "carousel" then some .carousel
  else none

-- === src/app/models/accounts.py ===

/-- models/accounts.py SiteWeb -/
inductive SiteWeb where
  | stuffgaming
  | gaming
  | football
deriving DecidableEq, Repr

/-- The string value of the SiteWeb str-enum. -/
def SiteWeb.value : SiteWeb → String
  | .stuffgaming => "stuffgaming.fr"
  | .gaming => "gaming.com"
  | .football => "football.com"

/-- models/accounts.py AccountConfig.  Credential fields (tokens, app ids,
business/page ids) are opaque secrets never inspected by the orchestrator
logic under verification and are omitted. -/
structure AccountConfig where
  site_web : SiteWeb
  platform : PlatformType
  account_id : String
  account_name : String
  is_active : Bool := true
deriving DecidableEq, Repr

/-- AccountMapping.accounts: dict keyed by `get_account_key`. -/
abbrev AccountMapping : Type := List (String × AccountConfig)

/-- AccountMapping.get_account_key: the f-string key of the str-enums, i.e.
their string values. -/
def accountKey (site : SiteWeb) (platform : PlatformType) : String :=
  site.value ++ "_" ++ platform.value

/-- The value of `f-string site.replace(chr 46, chr 95).title()` for each
site, evaluated per case. -/
def siteTitle : SiteWeb → String
  | .stuffgaming => "Stuffgaming_Fr"
  | .gaming => "Gaming_Com"
  | .football => "Football_Com"

/-- The value of `platform.title()` for each platform, evaluated per case. -/
def platformTitle : PlatformType → String
  | .twitter => "Twitter"
  | .facebook => "Facebook"
  | .linkedin => "Linkedin"
  | .instagram => "Instagram"

/-- The AccountConfig built inside create_default_accounts for one
site/platform pair. -/
def defaultAccount (site : SiteWeb) (platform : PlatformType) : AccountConfig :=
  { site_web := site
    platform := platform
    account_id := site.value ++ "_" ++ platform.value ++ "_account_id"
    account_name := siteTitle site ++ " " ++ platformTitle platform
    is_active := true }

/-- create_default_accounts: nested loops over the three sites and the three
platforms Instagram, Twitter, Facebook (LinkedIn gets no account). -/
def createDefaultAccounts : AccountMapping :=
  [SiteWeb.stuffgaming, SiteWeb.gaming, SiteWeb.football].foldl
    (fun m site =>
      [PlatformType.instagram, PlatformType.twitter, PlatformType.facebook].foldl
        (fun m platform =>
          insertAssoc m (accountKey site platform) (defaultAccount site platform))
        m)
    []

/-- The module-level account_mapping instance. -/
def account_mapping : AccountMapping := createDefaultAccounts

/-- validate_account_exists: `Except.error` models raising
AccountValidationError. -/
def validate_account_exists (site : SiteWeb) (platform : PlatformType) :
    Except String AccountConfig :=
  match lookupAssoc account_mapping (accountKey site platform) with
  | none =>
      .error s!"Aucun compte configuré pour {site.value} sur {platform.value}"
  | some account =>
      if !account.is_active then
        .error s!"Le compte {site.value}/{platform.value} est désactivé"
      else
        .ok account

-- === src/app/models/content.py ===

/-- models/content.py PlatformContentConfig (pydantic model). -/
structure PlatformContentConfig where
  platform : PlatformType
  content_type : ContentType := .post
  hashtags : Option (List String) := none
  mentions : Option (List String) := none
  lien_source : Option String := none
  lien_sticker : Option String := none
  nb_slides : Option Int := none
  titre_carousel : Option String := none
  images_urls : Option (List String) := none
  image_s3_url : Option String := none
  published : Bool := true
deriving DecidableEq, Repr

/-- models/content.py EnhancedPublicationRequest. -/
structure EnhancedPublicationRequest where
  texte_source : String
  site_web : SiteWeb
  platforms_config : List PlatformContentConfig
deriving DecidableEq, Repr

/-- models/content.py generate_images.  The uuid4 hex prefix drawn on each
iteration is supplied by the `ids` environment function. -/
def generate_images (nb_images : Int) (context : String) (ids : Nat → String) :
    List String :=
  (pyRange nb_images).map
    (fun i =>
      "https://generated-images.s3.amazonaws.com/carousel_" ++ ids i ++ "_"
        ++ toString (i + 1) ++ ".jpg")

-- === src/app/models/platforms.py (outputs with their pydantic validators) ===

/-- platforms.py TwitterPostOutput. -/
structure TwitterPostOutput where
  tweet : String
  medias : Option (List String) := none
  image_s3_url : Option String := none
deriving DecidableEq, Repr

/-- Construction of TwitterPostOutput through pydantic: the max_length=280
field constraint and validate_tweet_length reject longer tweets. -/
def mkTwitterPostOutput (tweet : String) (image_s3_url : Option String) :
    Except String TwitterPostOutput :=
  if tweet.length > 280 then
    .error "Le tweet ne peut pas dépasser 280 caractères"
  else
    .ok { tweet := tweet, image_s3_url := image_s3_url }

/-- platforms.py FacebookPostOutput (no length validator). -/
structure FacebookPostOutput where
  message : String
  media : Option String := none
deriving DecidableEq, Repr

/-- platforms.py LinkedInPostOutput (no length validator). -/
structure LinkedInPostOutput where
  contenu : String
  media : Option String := none
deriving DecidableEq, Repr

/-- platforms.py InstagramPostOutput. -/
structure InstagramPostOutput where
  legende : String
  hashtags : Option (List String) := none
deriving DecidableEq, Repr

/-- Construction of InstagramPostOutput through pydantic: max_length=2000 on
legende. -/
def mkInstagramPostOutput (legende : String) (hashtags : Option (List String)) :
    Except String InstagramPostOutput :=
  if legende.length > 2000 then
    .error "ensure this value has at most 2000 characters"
  else
    .ok { legende := legende, hashtags := hashtags }

/-- platforms.py InstagramStoryOutput. -/
structure InstagramStoryOutput where
  texte_story : String
  elements_graphiques : Option (List String) := none
deriving DecidableEq, Repr

/-- Construction of InstagramStoryOutput through pydantic: max_length=50 on
texte_story. -/
def mkInstagramStoryOutput (texte_story : String) :
    Except String InstagramStoryOutput :=
  if texte_story.length > 50 then
    .error "ensure this value has at most 50 characters"
  else
    .ok { texte_story := texte_story }

/-- platforms.py InstagramCarouselOutput. -/
structure InstagramCarouselOutput where
  slides : List String
  legende : String
  hashtags : Option (List String) := none
  images_urls : Option (List String) := none
  images_generated : Bool := false
deriving DecidableEq, Repr

/-- Construction of InstagramCarouselOutput through pydantic: the
validate_slides_count validator rejects slide lists outside 2..10. -/
def mkInstagramCarouselOutput (slides : List String) (legende : String)
    (hashtags : Option (List String)) (images_urls : Option (List String))
    (images_generated : Bool) : Except String InstagramCarouselOutput :=
  if slides.length < 2 ∨ slides.length > 10 then
    .error "Le carrousel doit contenir entre 2 et 10 slides"
  else
    .ok { slides := slides, legende := legende, hashtags := hashtags,
          images_urls := images_urls, images_generated := images_generated }

deriving instance DecidableEq for Except

-- === External collaborators of the orchestrator ===

/-- The generation/formatting collaborator (services/llm_service.py, an external
HTTP service) together with the ambient sources of randomness and the JSON
decoding of its structured carousel answers.

* `generateBaseContent` — llm_service.generate_content applied to the base
  prompt that _generate_content_node builds from the request (the prompt
  construction is folded into the collaborator, which is free to inspect the
  whole request); `Except.error` models a raised exception.
* `formatContentForPlatform` — llm_service.format_content_for_platform on
  (content, platform, content_type); the free-form constraints dict only
  steers the collaborator and is folded into it.
* `generateContent` — llm_service.generate_content for the carousel-specific
  structured call (keyed by the content passed to it).
* `parseCarouselJson` — `json.loads` plus extraction of the `slides` and
  `legende` fields from the collaborator answer; `none` models any exception
  (malformed JSON or missing key).
* `imageIds` — the uuid4 hex prefixes drawn by generate_images, indexed by
  loop iteration. -/
structure LLMOracle where
  generateBaseContent : EnhancedPublicationRequest → Except String String
  formatContentForPlatform : String → String → String → Except String String
  generateContent : String → Except String String
  parseCarouselJson : String → Option (List String × String)
  imageIds : Nat → String

-- === src/app/orchestrator/workflow.py: per-platform formatting helpers ===

/-- workflow.py _format_twitter_content: format through the collaborator, then
build TwitterPostOutput (whose validator may reject) carrying the configured
image URL. -/
def formatTwitterContent (oracle : LLMOracle) (content : String)
    (config : PlatformContentConfig) (_account : AccountConfig) :
    Except String TwitterPostOutput :=
  match oracle.formatContentForPlatform content "twitter" "post" with
  | .error e => .error e
  | .ok formatted => mkTwitterPostOutput formatted config.image_s3_url

/-- workflow.py _format_facebook_content. -/
def formatFacebookContent (oracle : LLMOracle) (content : String)
    (_config : PlatformContentConfig) (_account : AccountConfig) :
    Except String FacebookPostOutput :=
  match oracle.formatContentForPlatform content "facebook" "post" with
  | .error e => .error e
  | .ok formatted => .ok { message := formatted }

/-- workflow.py _format_linkedin_content. -/
def formatLinkedinContent (oracle : LLMOracle) (content : String)
    (_config : PlatformContentConfig) (_account : AccountConfig) :
    Except String LinkedInPostOutput :=
  match oracle.formatContentForPlatform content "linkedin" "post" with
  | .error e => .error e
  | .ok formatted => .ok { contenu := formatted }

/-- workflow.py _format_instagram_post. -/
def formatInstagramPost (oracle : LLMOracle) (content : String)
    (config : PlatformContentConfig) (_account : AccountConfig) :
    Except String InstagramPostOutput :=
  match oracle.formatContentForPlatform content "instagram" "post" with
  | .error e => .error e
  | .ok formatted => mkInstagramPostOutput formatted config.hashtags

/-- workflow.py _format_instagram_story: the formatted text is truncated to 50
characters before building the output. -/
def formatInstagramStory (oracle : LLMOracle) (content : String)
    (_config : PlatformContentConfig) (_account : AccountConfig) :
    Except String InstagramStoryOutput :=
  match oracle.formatContentForPlatform content "instagram" "story" with
  | .error e => .error e
  | .ok formatted => mkInstagramStoryOutput (pyStrTake formatted 50)

/-- workflow.py _format_instagram_carousel fallback branch: the mechanical
split of the base content into `nb_slides or 3` numbered segments, passed to
the (validating) output constructor.  Raised validator errors propagate out of
the except branch. -/
def carouselFallback (content : String) (config : PlatformContentConfig)
    (images_urls : List String) (images_generated : Bool) :
    Except String InstagramCarouselOutput :=
  mkInstagramCarouselOutput
    ((pyRange (pyOrInt config.nb_slides 3)).map
      (fun i => s!"Point {i + 1}: {pyStrTake content 100}..."))
    ("📱 Swipe pour découvrir → "
      ++ String.intercalate " " (config.hashtags.getD []))
    config.hashtags (some images_urls) images_generated

/-- workflow.py _format_instagram_carousel: auto-generate placeholder images
when none were supplied, ask the collaborator for a structured JSON answer,
and fall back to the mechanical split when decoding or the output validator
fails inside the try block. -/
def formatInstagramCarousel (oracle : LLMOracle) (content : String)
    (config : PlatformContentConfig) (_account : AccountConfig) :
    Except String InstagramCarouselOutput :=
  let provided := config.images_urls.getD []
  let images_generated := provided.isEmpty
  let images_urls :=
    if provided.isEmpty then
      generate_images (pyOrInt config.nb_slides 5) (pyStrTake content 100)
        oracle.imageIds
    else provided
  match oracle.generateContent content with
  | .error e => .error e
  | .ok formatted_json =>
    match oracle.parseCarouselJson formatted_json with
    | some (slides, legende) =>
      match mkInstagramCarouselOutput (pyListTake slides (pyOrInt config.nb_slides 5))
          legende config.hashtags (some images_urls) images_generated with
      | .ok out => .ok out
      | .error _ => carouselFallback content config images_urls images_generated
    | none => carouselFallback content config images_urls images_generated

/-- The per-target structured payload: one variant per platform output shape. -/
inductive FormattedContent where
  | twitterPost (out : TwitterPostOutput)
  | facebookPost (out : FacebookPostOutput)
  | linkedinPost (out : LinkedInPostOutput)
  | instagramPost (out : InstagramPostOutput)
  | instagramStory (out : InstagramStoryOutput)
  | instagramCarousel (out : InstagramCarouselOutput)
deriving DecidableEq, Repr

/-- The config_key built in _format_content_node:
`config.platform.value_config.content_type.value`. -/
def configKey (config : PlatformContentConfig) : String :=
  config.platform.value ++ "_" ++ config.content_type.value

/-- The platform/content-type dispatch of _format_content_node.  Every
platform and every Instagram content type has a branch in the source, so the
unsupported-type ValueError branch is unreachable for these enums. -/
def formatForConfig (oracle : LLMOracle) (content : String)
    (config : PlatformContentConfig) (account : AccountConfig) :
    Except String FormattedContent :=
  match config.platform with
  | .twitter => (formatTwitterContent oracle content config account).map .twitterPost
  | .facebook => (formatFacebookContent oracle content config account).map .facebookPost
  | .linkedin => (formatLinkedinContent oracle content config account).map .linkedinPost
  | .instagram =>
    match config.content_type with
    | .post => (formatInstagramPost oracle content config account).map .instagramPost
    | .story => (formatInstagramStory oracle content config account).map .instagramStory
    | .carousel =>
        (formatInstagramCarousel oracle content config account).map .instagramCarousel

/-- The per-config loop of _format_content_node: validate the account, then
format; AccountValidationError and formatting exceptions append an error
string and skip the target. -/
def formatLoop (oracle : LLMOracle) (site : SiteWeb) (content : String) :
    List PlatformContentConfig → List (String × FormattedContent) →
    List String → List (String × FormattedContent) × List String
  | [], formatted, errors => (formatted, errors)
  | config :: rest, formatted, errors =>
    match validate_account_exists site config.platform with
    | .error e =>
        formatLoop oracle site content rest formatted
          (errors ++ [s!"Erreur validation compte {config.platform.value}: {e}"])
    | .ok account =>
      match formatForConfig oracle content config account with
      | .ok fc =>
          formatLoop oracle site content rest
            (insertAssoc formatted (configKey config) fc) errors
      | .error e =>
          formatLoop oracle site content rest formatted
            (errors ++ [s!"Erreur formatage {configKey config}: {e}"])

-- === src/app/orchestrator/workflow.py: publication simulation ===

/-- The outcome of the external Twitter HTTP call made by _publish_to_twitter:
a 201 with a tweet id, a non-201 status, or an exception raised anywhere in
the call. -/
inductive TwitterCallOutcome where
  | posted (tweetId : String)
  | apiError (code : Nat) (text : String)
  | exn (msg : String)
deriving DecidableEq, Repr

/-- The external world the workflow publication node runs against:
credential lookup and Twitter call result for the one real publication path,
and the uuid4 hex used for the simulated platforms, keyed by platform key. -/
structure PublishEnv where
  twitterCreds : Except String Unit
  twitterCall : TwitterCallOutcome
  fakeId : String → String

/-- The result dict returned by the publication paths. -/
structure PublishResult where
  status : String
  post_id : Option String := none
  post_url : Option String := none
  platform : Option String := none
  error : Option String := none
  details : Option String := none
  tweet_text : Option String := none
deriving DecidableEq, Repr

/-- `content.tweet if hasattr(content, chr 39 tweet chr 39) else str(content)`:
the orchestrator only routes the twitter_post key here, which always carries a
TwitterPostOutput; the stringification of other payloads is abstracted. -/
def tweetTextOf : FormattedContent → String
  | .twitterPost out => out.tweet
  | _ => ""

/-- workflow.py _publish_to_twitter: the whole body is wrapped in try/except,
so every outcome is returned as a result dict and never raised. -/
def simPublishToTwitter (creds : Except String Unit) (call : TwitterCallOutcome)
    (tweetText : String) : PublishResult :=
  match creds with
  | .error e => { status := "failed", error := some e }
  | .ok _ =>
    match call with
    | .posted tweetId =>
        { status := "success", post_id := some tweetId,
          post_url := some ("https://twitter.com/i/web/status/" ++ tweetId),
          tweet_text := some tweetText }
    | .apiError code text =>
        { status := "failed", error := some s!"Twitter API error: {code}",
          details := some text }
    | .exn msg => { status := "failed", error := some msg }

/-- workflow.py _simulate_publication: the twitter_post key goes through the
real call, everything else is a simulated success. -/
def simulatePublication (env : PublishEnv) (key : String)
    (content : FormattedContent) : PublishResult :=
  if key = "twitter_post" then
    simPublishToTwitter env.twitterCreds env.twitterCall (tweetTextOf content)
  else
    { status := "success", post_id := some ("fake_id_" ++ env.fakeId key),
      post_url := some ("https://" ++ key ++ ".com/fake_post") }

/-- The per-target loop of _publish_content_node.  _simulate_publication never
raises (its only fallible path is internally wrapped), so the except branch of
the loop that would append to the error list is unreachable and no error is
recorded here. -/
def publishLoop (env : PublishEnv) :
    List (String × FormattedContent) → List (String × PublishResult) →
    List (String × PublishResult)
  | [], results => results
  | (key, content) :: rest, results =>
      publishLoop env rest
        (insertAssoc results key (simulatePublication env key content))

-- === src/app/orchestrator/workflow.py: the four LangGraph nodes ===

/-- workflow.py WorkflowState. -/
structure WorkflowState where
  request : EnhancedPublicationRequest
  content_generated : Option String := none
  formatted_content : List (String × FormattedContent) := []
  publication_results : List (String × PublishResult) := []
  errors : List String := []
  current_step : String := "initialized"
deriving DecidableEq, Repr

/-- workflow.py _generate_content_node. -/
def generateContentNode (oracle : LLMOracle) (s : WorkflowState) :
    WorkflowState :=
  match oracle.generateBaseContent s.request with
  | .ok generated =>
      { s with content_generated := some generated,
               current_step := "content_generated" }
  | .error e =>
      { s with errors :=
          s.errors ++ [s!"Erreur lors de la génération de contenu: {e}"] }

/-- workflow.py _format_content_node: the falsy check
`not state.get("content_generated")` fires on a missing value AND on the
empty string — both take the early return that records the error; otherwise
the per-config loop runs on a fresh formatted dict. -/
def formatContentNode (oracle : LLMOracle) (s : WorkflowState) :
    WorkflowState :=
  match s.content_generated with
  | none => { s with errors := s.errors ++ ["Aucun contenu généré à formater"] }
  | some content =>
    if content = "" then
      { s with errors := s.errors ++ ["Aucun contenu généré à formater"] }
    else
      let r := formatLoop oracle s.request.site_web content
        s.request.platforms_config [] s.errors
      { s with formatted_content := r.1, errors := r.2,
               current_step := "content_formatted" }

/-- workflow.py _publish_content_node. -/
def publishContentNode (env : PublishEnv) (s : WorkflowState) : WorkflowState :=
  { s with publication_results := publishLoop env s.formatted_content [],
           current_step := "content_published" }

/-- workflow.py _finalize_results_node: completed unless any error was
recorded or the publication results dict is empty (falsy). -/
def finalizeResultsNode (s : WorkflowState) : WorkflowState :=
  let s := { s with current_step := "completed" }
  if s.errors.length > 0 ∨ s.publication_results.isEmpty then
    { s with current_step := "failed" }
  else s

/-- The initial WorkflowState built by execute_workflow. -/
def initialState (request : EnhancedPublicationRequest) : WorkflowState :=
  { request := request }

/-- workflow.py execute_workflow: the compiled linear LangGraph
generate → format → publish → finalize. -/
def executeWorkflow (oracle : LLMOracle) (env : PublishEnv)
    (request : EnhancedPublicationRequest) : WorkflowState :=
  finalizeResultsNode
    (publishContentNode env
      (formatContentNode oracle
        (generateContentNode oracle (initialState request))))

-- === src/app/agents/base_agent.py result helpers ===

/-- base_agent.py BasePublisher._create_success_result (the free-form
additional_data metadata dict is not modelled). -/
def createSuccessResult (platform : String) (post_id : String)
    (post_url : String) : PublishResult :=
  { status := "success", post_id := some post_id, post_url := some post_url,
    platform := some platform }

/-- base_agent.py BasePublisher._create_error_result. -/
def createErrorResult (platform : String) (error : String) : PublishResult :=
  { status := "failed", platform := some platform, error := some error }

-- === src/app/agents/publishers/twitter.py ===

/-- An entry of twitter_drafts_store (stored analysis/timestamp metadata
omitted). -/
structure TwitterDraft where
  tweet : String
  image_s3_url : Option String := none
  site_web : SiteWeb
  account : String
deriving DecidableEq, Repr

/-- The module-level twitter_drafts_store dict. -/
abbrev TwitterDraftStore : Type := List (String × TwitterDraft)

/-- The external world TwitterPublisher.publish_content runs against:
credential lookup, the HTTP call outcome, and the uuid4 hex used for draft
ids. -/
structure TwitterPublisherEnv where
  creds : Except String Unit
  call : TwitterCallOutcome
  uuid8 : String

/-- twitter.py TwitterPublisher.publish_content.  Returns the result dict,
the updated draft store, and the number of external publish-collaborator
invocations performed (tweet post, plus the media upload when an image is
attached).  The whole body is wrapped in try/except, so every branch returns
a result instead of raising. -/
def twitterPublishContent (env : TwitterPublisherEnv)
    (content : TwitterPostOutput) (site : SiteWeb) (account : AccountConfig)
    (published : Bool) (store : TwitterDraftStore) :
    PublishResult × TwitterDraftStore × Nat :=
  if !published then
    let draft_id := "twitter_draft_" ++ env.uuid8
    (createSuccessResult "twitter" draft_id
        ("internal://drafts/twitter/" ++ draft_id),
      insertAssoc store draft_id
        { tweet := content.tweet, image_s3_url := content.image_s3_url,
          site_web := site, account := account.account_name },
      0)
  else
    match env.creds with
    | .error e =>
        (createErrorResult "twitter"
          s!"Erreur lors de la publication Twitter: {e}", store, 0)
    | .ok _ =>
      match env.call with
      | .posted tweetId =>
          (createSuccessResult "twitter" tweetId
              ("https://twitter.com/i/web/status/" ++ tweetId),
            store, 1 + (if content.image_s3_url.isSome then 1 else 0))
      | .apiError code text =>
          (createErrorResult "twitter" s!"Twitter API error: {code} - {text}",
            store, 1 + (if content.image_s3_url.isSome then 1 else 0))
      | .exn msg =>
          (createErrorResult "twitter"
            s!"Erreur lors de la publication Twitter: {msg}", store, 0)

/-- twitter.py delete_twitter_draft (dict keys are unique, so deleting the
key is removal of its sole binding). -/
def deleteTwitterDraft (draft_id : String) (store : TwitterDraftStore) :
    Bool × TwitterDraftStore :=
  if containsKey store draft_id then
    (true, store.filter (fun p => p.1 ≠ draft_id))
  else
    (false, store)

-- === src/app/agents/publishers/facebook.py ===

/-- Facebook page credentials as returned by get_platform_credentials. -/
structure FacebookCreds where
  page_id : String
deriving DecidableEq, Repr

/-- The outcome of the Facebook Graph API feed call: a 200 with a post id, a
non-200 status (which the inner helper raises and the outer except converts),
or an exception elsewhere in the call. -/
inductive FacebookCallOutcome where
  | ok (postId : String)
  | httpError (code : Nat) (text : String)
  | exn (msg : String)
deriving DecidableEq, Repr

/-- The external world FacebookPublisher.publish_content runs against. -/
structure FacebookPublisherEnv where
  creds : Except String FacebookCreds
  call : FacebookCallOutcome

/-- facebook.py FacebookPublisher.publish_content.  Returns the result dict
and the number of external publish-collaborator invocations.  Note the draft
path (published=False) still performs the Graph API call, only with
published=False / unpublished_content_type=DRAFT in the payload, and the
returned id is the id assigned by Facebook. -/
def facebookPublishContent (env : FacebookPublisherEnv)
    (content : FacebookPostOutput) (site : SiteWeb) (account : AccountConfig)
    (published : Bool) : PublishResult × Nat :=
  match env.creds with
  | .error e =>
      (createErrorResult "facebook"
        s!"Erreur lors de la publication Facebook: {e}", 0)
  | .ok creds =>
    match env.call with
    | .ok postId =>
      if published then
        (createSuccessResult "facebook" postId
            ("https://facebook.com/" ++ creds.page_id ++ "/posts/" ++ postId), 1)
      else
        (createSuccessResult "facebook" postId
            ("https://facebook.com/" ++ creds.page_id ++ "/publishing_tools/"), 1)
    | .httpError code text =>
        (createErrorResult "facebook"
          s!"Erreur lors de la publication Facebook: Erreur Facebook API: {code} - {text}",
          1)
    | .exn msg =>
        (createErrorResult "facebook"
          s!"Erreur lors de la publication Facebook: {msg}", 0)

-- === src/app/agents/publishers/instagram.py ===

/-- An entry of instagram_drafts_store (the stored content dict and timestamp
metadata omitted). -/
structure InstagramDraft where
  site_web : SiteWeb
  account : String
  content_type : ContentType
deriving DecidableEq, Repr

/-- The module-level instagram_drafts_store dict. -/
abbrev InstagramDraftStore : Type := List (String × InstagramDraft)

/-- The outcome of the Instagram Graph API publication calls. -/
inductive InstagramCallOutcome where
  | ok (mediaId : String)
  | exn (msg : String)
deriving DecidableEq, Repr

/-- The external world InstagramPublisher.publish_content runs against. -/
structure InstagramPublisherEnv where
  creds : Except String Unit
  call : InstagramCallOutcome
  uuid8 : String

/-- instagram.py InstagramPublisher.publish_content: the published=False check
comes first and stages a local draft without touching credentials or the
external API; the published paths are folded into the call outcome. -/
def instagramPublishContent (env : InstagramPublisherEnv)
    (content : FormattedContent) (site : SiteWeb) (account : AccountConfig)
    (content_type : ContentType) (published : Bool)
    (store : InstagramDraftStore) :
    PublishResult × InstagramDraftStore × Nat :=
  if !published then
    let draft_id := "instagram_draft_" ++ content_type.value ++ "_" ++ env.uuid8
    (createSuccessResult "instagram" draft_id
        ("internal://drafts/instagram/" ++ draft_id),
      insertAssoc store draft_id
        { site_web := site, account := account.account_name,
          content_type := content_type },
      0)
  else
    match env.creds with
    | .error e =>
        (createErrorResult "instagram"
          s!"Erreur lors de la publication Instagram: {e}", store, 0)
    | .ok _ =>
      match env.call with
      | .ok mediaId =>
          (createSuccessResult "instagram" mediaId
              ("https://instagram.com/p/" ++ mediaId), store, 1)
      | .exn msg =>
          (createErrorResult "instagram"
            s!"Erreur lors de la publication Instagram: {msg}", store, 1)

/-- instagram.py delete_instagram_draft. -/
def deleteInstagramDraft (draft_id : String) (store : InstagramDraftStore) :
    Bool × InstagramDraftStore :=
  if containsKey store draft_id then
    (true, store.filter (fun p => p.1 ≠ draft_id))
  else
    (false, store)

-- === src/app/main.py ===

/-- main.py TaskResult (models/base.py), with the per-platform result dict. -/
structure TaskResult where
  task_id : String
  status : TaskStatus
  platform : PlatformType
  content_type : ContentType
  result : PublishResult
deriving DecidableEq, Repr

/-- main.py PublicationResult (models/base.py). -/
structure PublicationResult where
  request_id : String
  status : TaskStatus
  platforms_results : List TaskResult
deriving DecidableEq, Repr

/-- The in-memory task_store dict of main.py. -/
abbrev TaskStore : Type := List (String × PublicationResult)

/-- The response dict of _process_publication. -/
structure SubmitResponse where
  request_id : String
  status : String
  message : String
deriving DecidableEq, Repr

/-- main.py _process_publication: register a pending PublicationResult under
the fresh request id and answer accepted immediately (the background task runs
later); no validation of the request content is performed. -/
def processPublication (store : TaskStore) (request_id : String)
    (request : EnhancedPublicationRequest) : TaskStore × SubmitResponse :=
  (insertAssoc store request_id
      { request_id := request_id, status := .pending, platforms_results := [] },
    { request_id := request_id, status := "accepted",
      message := "Demande de publication acceptée, traitement en cours" })

/-- main.py get_publication_status: 404 (RequestNotFound) for unknown ids,
otherwise the stored snapshot. -/
def getPublicationStatus (store : TaskStore) (request_id : String) :
    Except Nat PublicationResult :=
  match lookupAssoc store request_id with
  | none => .error 404
  | some r => .ok r

/-- The per-entry result conversion of process_publication_request: split the
platform key, convert the pieces through the enums (a ValueError yields
`none` and sends the whole conversion to the except branch). -/
def buildTaskResult (request_id : String) (key : String)
    (result : PublishResult) : Option TaskResult :=
  let platform_str := (key.splitOn "_").headD ""
  let content_type_str :=
    match key.splitOn "_" with
    | _ :: c :: _ => c
    | _ => "post"
  match platformOfString platform_str, contentTypeOfString content_type_str with
  | some p, some ct =>
      some { task_id := request_id ++ "_" ++ platform_str,
             status := if result.status = "success" then .completed else .failed,
             platform := p, content_type := ct, result := result }
  | _, _ => none

/-- The conversion loop over the workflow publication results. -/
def buildResults (request_id : String) :
    List (String × PublishResult) → Option (List TaskResult)
  | [] => some []
  | (key, result) :: rest =>
    match buildTaskResult request_id key result with
    | none => none
    | some tr =>
      match buildResults request_id rest with
      | none => none
      | some trs => some (tr :: trs)

/-- main.py process_publication_request: run the workflow and write the final
snapshot back into the store.  Status is completed with converted per-target
results when the workflow step is completed and the conversion does not
raise; any other path marks the request failed, leaving the previously stored
(empty) platforms_results. -/
def processPublicationRequest (oracle : LLMOracle) (env : PublishEnv)
    (store : TaskStore) (request_id : String)
    (request : EnhancedPublicationRequest) : TaskStore :=
  let prior := (lookupAssoc store request_id).getD
    { request_id := request_id, status := .pending, platforms_results := [] }
  let final := executeWorkflow oracle env request
  if final.current_step = "completed" then
    match buildResults request_id final.publication_results with
    | some rs =>
        insertAssoc store request_id
          { prior with status := .completed, platforms_results := rs }
    | none => insertAssoc store request_id { prior with status := .failed }
  else
    insertAssoc store request_id { prior with status := .failed }

/-- The response dict of the DELETE /drafts/draft_id endpoint. -/
structure DeleteDraftResponse where
  draft_id : String
  status : String
  platform : String
deriving DecidableEq, Repr

/-- main.py delete_draft endpoint: dispatch on the id prefix to the local
draft stores (Facebook ids go to the external API, folded into fbDelete);
`success=False` raises HTTPException 404 — a reported error, modelled as
`Except.error 404`.  Returns the response plus both updated local stores. -/
def deleteDraftEndpoint (fbDelete : String → PublishResult)
    (twStore : TwitterDraftStore) (igStore : InstagramDraftStore)
    (draft_id : String) :
    Except Nat DeleteDraftResponse × TwitterDraftStore × InstagramDraftStore :=
  if pyStartsWith draft_id "instagram_draft_" then
    let r := deleteInstagramDraft draft_id igStore
    if r.1 then
      (.ok { draft_id := draft_id, status := "deleted", platform := "instagram" },
        twStore, r.2)
    else (.error 404, twStore, r.2)
  else if pyStartsWith draft_id "twitter_draft_" then
    let r := deleteTwitterDraft draft_id twStore
    if r.1 then
      (.ok { draft_id := draft_id, status := "deleted", platform := "twitter" },
        r.2, igStore)
    else (.error 404, r.2, igStore)
  else if pyStartsWith draft_id "facebook_" then
    if (fbDelete draft_id).status = "success" then
      (.ok { draft_id := draft_id, status := "deleted", platform := "facebook" },
        twStore, igStore)
    else (.error 404, twStore, igStore)
  else
    (.error 404, twStore, igStore)

-- Smoke checks of the account mapping
example : (validate_account_exists .stuffgaming .twitter).isOk = true := by decide
example : validate_account_exists .stuffgaming .linkedin =
    .error "Aucun compte configuré pour stuffgaming.fr sur linkedin" := by decide

-- === Association-list lemmas ===

theorem lookupAssoc_map_self {α : Type} (m : List (String × α)) (k : String)
    (v : α) (h : containsKey m k = true) :
    lookupAssoc (m.map (fun p => if p.1 = k then (k, v) else p)) k = some v := by
  induction m with
  | nil => simp [containsKey, lookupAssoc] at h
  | cons p rest ih =>
    by_cases hp : p.1 = k
    · simp [lookupAssoc, hp]
    · have h' : containsKey rest k = true := by
        simpa [containsKey, lookupAssoc, hp] using h
      simp [lookupAssoc, hp, ih h']

theorem lookupAssoc_append_self {α : Type} (m : List (String × α)) (k : String)
    (v : α) (h : containsKey m k = false) :
    lookupAssoc (m ++ [(k, v)]) k = some v := by
  induction m with
  | nil => simp [lookupAssoc]
  | cons p rest ih =>
    by_cases hp : p.1 = k
    · simp [containsKey, lookupAssoc, hp] at h
    · have h' : containsKey rest k = false := by
        simpa [containsKey, lookupAssoc, hp] using h
      simp [lookupAssoc, hp, ih h']

theorem lookupAssoc_insertAssoc_self {α : Type} (m : List (String × α))
    (k : String) (v : α) : lookupAssoc (insertAssoc m k v) k = some v := by
  unfold insertAssoc
  by_cases h : containsKey m k = true
  · simp [h, lookupAssoc_map_self m k v h]
  · simp at h
    simp [h, lookupAssoc_append_self m k v h]

theorem lookupAssoc_map_ne {α : Type} (m : List (String × α)) (k k2 : String)
    (v : α) (hne : k2 ≠ k) :
    lookupAssoc (m.map (fun p => if p.1 = k2 then (k2, v) else p)) k =
      lookupAssoc m k := by
  induction m with
  | nil => simp
  | cons p rest ih =>
    by_cases hp : p.1 = k2
    · simp [lookupAssoc, hp, hne, ih]
    · simp [lookupAssoc, hp, ih]

theorem lookupAssoc_append_ne {α : Type} (m : List (String × α)) (k k2 : String)
    (v : α) (hne : k2 ≠ k) :
    lookupAssoc (m ++ [(k2, v)]) k = lookupAssoc m k := by
  induction m with
  | nil => simp [lookupAssoc, hne]
  | cons p rest ih =>
    by_cases hp : p.1 = k
    · simp [lookupAssoc, hp]
    · simp [lookupAssoc, hp, ih]

theorem lookupAssoc_insertAssoc_ne {α : Type} (m : List (String × α))
    (k k2 : String) (v : α) (hne : k2 ≠ k) :
    lookupAssoc (insertAssoc m k2 v) k = lookupAssoc m k := by
  unfold insertAssoc
  by_cases h : containsKey m k2 = true
  · simp [h, lookupAssoc_map_ne m k k2 v hne]
  · simp at h
    simp [h, lookupAssoc_append_ne m k k2 v hne]

theorem length_insertAssoc {α : Type} (m : List (String × α)) (k : String)
    (v : α) :
    (insertAssoc m k v).length =
      if containsKey m k then m.length else m.length + 1 := by
  unfold insertAssoc
  by_cases h : containsKey m k = true
  · simp [h]
  · simp at h
    simp [h]

theorem insertAssoc_keys_all {α : Type} (m : List (String × α)) (k : String)
    (v : α) (h : ∀ p ∈ m, p.1 = k) :
    ∀ q ∈ insertAssoc m k v, q.1 = k := by
  unfold insertAssoc
  by_cases hc : containsKey m k = true
  · simp only [hc, if_true]
    intro q hq
    obtain ⟨p, hp, rfl⟩ := List.mem_map.mp hq
    by_cases hpk : p.1 = k
    · simp [hpk]
    · simp [hpk, h p hp]
  · simp only [hc]
    intro q hq
    rcases List.mem_append.mp hq with hq | hq
    · exact h q hq
    · simp at hq
      simp [hq]

theorem lookupAssoc_filter_self {α : Type} (m : List (String × α)) (k : String) :
    lookupAssoc (m.filter (fun p => !decide (p.1 = k))) k = none := by
  induction m with
  | nil => simp [lookupAssoc]
  | cons p rest ih =>
    by_cases hp : p.1 = k
    · simpa [List.filter_cons, hp] using ih
    · simpa [List.filter_cons, hp, lookupAssoc] using ih

theorem pyStrTake_length_le (s : String) (n : Nat) :
    (pyStrTake s n).length ≤ n := by
  have h : (pyStrTake s n).length = (s.data.take n).length := rfl
  rw [h]
  exact List.length_take_le n s.data

-- === Pipeline-level lemmas ===

/-- The config key determines the platform: the nine possible keys are
pairwise distinct across platforms. -/
theorem keyDeterminesPlatform (p1 p2 : PlatformType) (t1 t2 : ContentType)
    (h : p1.value ++ "_" ++ t1.value = p2.value ++ "_" ++ t2.value) :
    p1 = p2 := by
  revert h
  cases p1 <;> cases p2 <;> cases t1 <;> cases t2 <;> decide

/-- Step equation of the formatting loop: account validation fails. -/
theorem formatLoop_cons_invalid (oracle : LLMOracle) (site : SiteWeb)
    (content : String) (c : PlatformContentConfig)
    (rest : List PlatformContentConfig)
    (fc : List (String × FormattedContent)) (errs : List String) (e : String)
    (hv : validate_account_exists site c.platform = .error e) :
    formatLoop oracle site content (c :: rest) fc errs =
      formatLoop oracle site content rest fc
        (errs ++ [s!"Erreur validation compte {c.platform.value}: {e}"]) := by
  simp [formatLoop, hv]

/-- Step equation of the formatting loop: validation and formatting succeed. -/
theorem formatLoop_cons_ok (oracle : LLMOracle) (site : SiteWeb)
    (content : String) (c : PlatformContentConfig)
    (rest : List PlatformContentConfig)
    (fc : List (String × FormattedContent)) (errs : List String)
    (account : AccountConfig) (f : FormattedContent)
    (hv : validate_account_exists site c.platform = .ok account)
    (hf : formatForConfig oracle content c account = .ok f) :
    formatLoop oracle site content (c :: rest) fc errs =
      formatLoop oracle site content rest (insertAssoc fc (configKey c) f)
        errs := by
  simp [formatLoop, hv, hf]

/-- Step equation of the formatting loop: formatting raises. -/
theorem formatLoop_cons_fmt_error (oracle : LLMOracle) (site : SiteWeb)
    (content : String) (c : PlatformContentConfig)
    (rest : List PlatformContentConfig)
    (fc : List (String × FormattedContent)) (errs : List String)
    (account : AccountConfig) (e : String)
    (hv : validate_account_exists site c.platform = .ok account)
    (hf : formatForConfig oracle content c account = .error e) :
    formatLoop oracle site content (c :: rest) fc errs =
      formatLoop oracle site content rest fc
        (errs ++ [s!"Erreur formatage {configKey c}: {e}"]) := by
  simp [formatLoop, hv, hf]

/-- Error strings already recorded survive the formatting loop (the loop only
appends). -/
theorem formatLoop_errors_mono (oracle : LLMOracle) (site : SiteWeb)
    (content : String) (cfgs : List PlatformContentConfig) :
    ∀ (fc : List (String × FormattedContent)) (errs : List String)
      (e : String), e ∈ errs →
      e ∈ (formatLoop oracle site content cfgs fc errs).2 := by
  induction cfgs with
  | nil => intro fc errs e he; simpa [formatLoop] using he
  | cons c rest ih =>
    intro fc errs e he
    cases hv : validate_account_exists site c.platform with
    | error msg =>
      rw [formatLoop_cons_invalid oracle site content c rest fc errs msg hv]
      exact ih _ _ _ (List.mem_append_left _ he)
    | ok account =>
      cases hf : formatForConfig oracle content c account with
      | ok fcv =>
        rw [formatLoop_cons_ok oracle site content c rest fc errs account fcv hv hf]
        exact ih _ _ _ he
      | error msg =>
        rw [formatLoop_cons_fmt_error oracle site content c rest fc errs account msg hv hf]
        exact ih _ _ _ (List.mem_append_left _ he)

/-- A config whose account validation fails contributes its error string to
the formatting loop output. -/
theorem formatLoop_error_of_invalid (oracle : LLMOracle) (site : SiteWeb)
    (content : String) (c : PlatformContentConfig) (e : String)
    (hval : validate_account_exists site c.platform = .error e) :
    ∀ (cfgs : List PlatformContentConfig)
      (fc : List (String × FormattedContent)) (errs : List String),
      c ∈ cfgs →
      s!"Erreur validation compte {c.platform.value}: {e}"
        ∈ (formatLoop oracle site content cfgs fc errs).2 := by
  intro cfgs
  induction cfgs with
  | nil => intro fc errs hc; cases hc
  | cons c0 rest ih =>
    intro fc errs hc
    rcases List.mem_cons.mp hc with rfl | hmem
    · rw [formatLoop_cons_invalid oracle site content _ rest fc errs e hval]
      exact formatLoop_errors_mono oracle site content rest fc _ _
        (List.mem_append_right _ (List.mem_singleton.mpr rfl))
    · cases hv : validate_account_exists site c0.platform with
      | error msg =>
        rw [formatLoop_cons_invalid oracle site content c0 rest fc errs msg hv]
        exact ih _ _ hmem
      | ok account =>
        cases hf : formatForConfig oracle content c0 account with
        | ok fcv =>
          rw [formatLoop_cons_ok oracle site content c0 rest fc errs account fcv hv hf]
          exact ih _ _ hmem
        | error msg =>
          rw [formatLoop_cons_fmt_error oracle site content c0 rest fc errs account msg hv hf]
          exact ih _ _ hmem

/-- When every config carrying a given key fails account validation, the
formatting loop never creates an entry under that key. -/
theorem formatLoop_lookup_none (oracle : LLMOracle) (site : SiteWeb)
    (content : String) (k : String) :
    ∀ (cfgs : List PlatformContentConfig)
      (fc : List (String × FormattedContent)) (errs : List String),
      lookupAssoc fc k = none →
      (∀ c ∈ cfgs, configKey c = k →
        ∃ e, validate_account_exists site c.platform = .error e) →
      lookupAssoc (formatLoop oracle site content cfgs fc errs).1 k = none := by
  intro cfgs
  induction cfgs with
  | nil => intro fc errs hfc hcfgs; simpa [formatLoop] using hfc
  | cons c rest ih =>
    intro fc errs hfc hcfgs
    cases hv : validate_account_exists site c.platform with
    | error msg =>
      rw [formatLoop_cons_invalid oracle site content c rest fc errs msg hv]
      exact ih _ _ hfc (fun c2 h2 => hcfgs c2 (List.mem_cons_of_mem _ h2))
    | ok account =>
      have hk : configKey c ≠ k := by
        intro hkk
        obtain ⟨e2, he2⟩ := hcfgs c (List.mem_cons_self _ _) hkk
        rw [hv] at he2
        cases he2
      cases hf : formatForConfig oracle content c account with
      | ok fcv =>
        rw [formatLoop_cons_ok oracle site content c rest fc errs account fcv hv hf]
        refine ih _ _ ?_ (fun c2 h2 => hcfgs c2 (List.mem_cons_of_mem _ h2))
        rw [lookupAssoc_insertAssoc_ne fc k (configKey c) fcv hk]
        exact hfc
      | error msg =>
        rw [formatLoop_cons_fmt_error oracle site content c rest fc errs account msg hv hf]
        exact ih _ _ hfc (fun c2 h2 => hcfgs c2 (List.mem_cons_of_mem _ h2))

/-- If every config of the loop shares one key and the accumulator is a
sub-singleton on that key, the result dict stays a sub-singleton: duplicate
targets overwrite instead of accumulating. -/
theorem formatLoop_sameKey_length (oracle : LLMOracle) (site : SiteWeb)
    (content : String) (k : String) :
    ∀ (cfgs : List PlatformContentConfig)
      (fc : List (String × FormattedContent)) (errs : List String),
      (∀ c ∈ cfgs, configKey c = k) → (∀ p ∈ fc, p.1 = k) → fc.length ≤ 1 →
      (formatLoop oracle site content cfgs fc errs).1.length ≤ 1 := by
  intro cfgs
  induction cfgs with
  | nil => intro fc errs hcfg hkeys hlen; simpa [formatLoop] using hlen
  | cons c rest ih =>
    intro fc errs hcfg hkeys hlen
    cases hv : validate_account_exists site c.platform with
    | error msg =>
      rw [formatLoop_cons_invalid oracle site content c rest fc errs msg hv]
      exact ih _ _ (fun c2 h2 => hcfg c2 (List.mem_cons_of_mem _ h2)) hkeys hlen
    | ok account =>
      cases hf : formatForConfig oracle content c account with
      | ok fcv =>
        rw [formatLoop_cons_ok oracle site content c rest fc errs account fcv hv hf]
        have hck : configKey c = k := hcfg c (List.mem_cons_self _ _)
        refine ih _ _ (fun c2 h2 => hcfg c2 (List.mem_cons_of_mem _ h2)) ?_ ?_
        · rw [hck]
          exact insertAssoc_keys_all fc k fcv hkeys
        · rw [hck, length_insertAssoc]
          match fc, hlen with
          | [], _ => simp [containsKey, lookupAssoc]
          | [p], _ =>
            have hp : p.1 = k := hkeys p (List.mem_singleton.mpr rfl)
            simp [containsKey, lookupAssoc, hp]
      | error msg =>
        rw [formatLoop_cons_fmt_error oracle site content c rest fc errs account msg hv hf]
        exact ih _ _ (fun c2 h2 => hcfg c2 (List.mem_cons_of_mem _ h2)) hkeys hlen

/-- The publication loop creates entries only under keys of the formatted
dict. -/
theorem publishLoop_lookup_none (env : PublishEnv) (k : String) :
    ∀ (fc : List (String × FormattedContent))
      (acc : List (String × PublishResult)),
      lookupAssoc fc k = none → lookupAssoc acc k = none →
      lookupAssoc (publishLoop env fc acc) k = none := by
  intro fc
  induction fc with
  | nil => intro acc hfc hacc; simpa [publishLoop] using hacc
  | cons p rest ih =>
    intro acc hfc hacc
    have hp : p.1 ≠ k := by
      intro hk
      simp [lookupAssoc, hk] at hfc
    have hrest : lookupAssoc rest k = none := by
      simpa [lookupAssoc, hp] using hfc
    show lookupAssoc
      (publishLoop env rest
        (insertAssoc acc p.1 (simulatePublication env p.1 p.2))) k = none
    refine ih _ hrest ?_
    rw [lookupAssoc_insertAssoc_ne acc k p.1 _ hp]
    exact hacc

/-- _finalize_results_node only rewrites current_step. -/
theorem finalizeResultsNode_fields (s : WorkflowState) :
    (finalizeResultsNode s).errors = s.errors ∧
    (finalizeResultsNode s).publication_results = s.publication_results ∧
    (finalizeResultsNode s).formatted_content = s.formatted_content ∧
    (finalizeResultsNode s).content_generated = s.content_generated := by
  unfold finalizeResultsNode
  dsimp only
  split <;> simp

/-- The final step of _finalize_results_node as a function of the recorded
errors and the publication results. -/
theorem finalizeResultsNode_step (s : WorkflowState) :
    (finalizeResultsNode s).current_step =
      (if s.errors = [] ∧ s.publication_results ≠ [] then "completed"
       else "failed") := by
  by_cases he : s.errors = []
  · by_cases hp : s.publication_results = []
    · simp [finalizeResultsNode, he, hp]
    · simp [finalizeResultsNode, List.isEmpty_iff, he, hp]
  · have h0 : s.errors.length > 0 := List.length_pos.mpr he
    simp [finalizeResultsNode, he, h0]

-- === Concrete fixtures used by counterexamples and witnesses ===

/-- A collaborator that always answers, with an answer the structured-JSON
decoder rejects. -/
def oracleOkShort : LLMOracle :=
  { generateBaseContent := fun _ => .ok "base"
    formatContentForPlatform := fun _ _ _ => .ok "texte"
    generateContent := fun _ => .ok "pas du json"
    parseCarouselJson := fun _ => none
    imageIds := fun _ => "img00000" }

/-- A publish environment whose Twitter call is rejected by the API. -/
def envTwitterFail : PublishEnv :=
  { twitterCreds := .ok (), twitterCall := .apiError 403 "Forbidden",
    fakeId := fun _ => "abcd1234" }

/-- A publish environment whose Twitter call succeeds. -/
def envTwitterOk : PublishEnv :=
  { twitterCreds := .ok (), twitterCall := .posted "t1",
    fakeId := fun _ => "abcd1234" }

/-- A sample account used where the claims quantify over accounts. -/
def sampleAccount : AccountConfig := defaultAccount .stuffgaming .facebook

-- === C10 ===

/-- C10: for every non-negative integer n and every context string,
generate_images returns a list of exactly n placeholder image URL strings. -/
theorem C10_generate_images_length (n : Nat) (context : String)
    (ids : Nat → String) :
    (generate_images (n : Int) context ids).length = n := by
  simp [generate_images, pyRange]

-- === C9 ===

/-- C9: whatever text the generation collaborator produces for an Instagram
story, the formatter succeeds and its texte_story field has at most 50
characters (the formatted text is truncated before the output model is
built). -/
theorem C9_story_length_le_50 (oracle : LLMOracle) (content : String)
    (config : PlatformContentConfig) (account : AccountConfig) (f : String)
    (h : oracle.formatContentForPlatform content "instagram" "story" = .ok f) :
    ∃ out, formatInstagramStory oracle content config account = .ok out ∧
      out.texte_story.length ≤ 50 := by
  have hle : (pyStrTake f 50).length ≤ 50 := pyStrTake_length_le f 50
  have hred : formatInstagramStory oracle content config account =
      mkInstagramStoryOutput (pyStrTake f 50) := by
    simp [formatInstagramStory, h]
  refine ⟨{ texte_story := pyStrTake f 50 }, ?_, hle⟩
  rw [hred]
  unfold mkInstagramStoryOutput
  rw [if_neg (by omega)]

/-- A collaborator answering stories with a text far beyond 50 characters. -/
def storyOracle : LLMOracle :=
  { generateBaseContent := fun _ => .ok "base"
    formatContentForPlatform := fun _ _ _ => .ok "Une très longue story qui dépasse largement la limite de cinquante caractères imposée par le format"
    generateContent := fun _ => .ok "x"
    parseCarouselJson := fun _ => none
    imageIds := fun _ => "i" }

/-- Witness for C9 at a formatted text far beyond 50 characters. -/
theorem C9_story_length_le_50_witness :
    ∃ out, formatInstagramStory storyOracle "base"
        { platform := .instagram, content_type := .story }
        sampleAccount = .ok out ∧
      out.texte_story.length ≤ 50 :=
  C9_story_length_le_50 storyOracle "base"
    { platform := .instagram, content_type := .story } sampleAccount _ rfl

-- === C4 ===

/-- C4: the per-target publish operation of the Twitter and Facebook
publishers always returns a terminal outcome whose status is success or
failed; an external exception is captured inside the returned outcome (its
message lands in the error field) and is never raised upward — the functions
are total over every environment. -/
theorem C4_publish_always_returns_outcome :
    (∀ (env : TwitterPublisherEnv) (content : TwitterPostOutput)
        (site : SiteWeb) (account : AccountConfig) (published : Bool)
        (store : TwitterDraftStore),
      (twitterPublishContent env content site account published store).1.status
          = "success"
        ∨ (twitterPublishContent env content site account published
            store).1.status = "failed")
    ∧ (∀ (env : FacebookPublisherEnv) (content : FacebookPostOutput)
        (site : SiteWeb) (account : AccountConfig) (published : Bool),
      (facebookPublishContent env content site account published).1.status
          = "success"
        ∨ (facebookPublishContent env content site account published).1.status
          = "failed")
    ∧ (∀ (msg uuid : String) (content : TwitterPostOutput) (site : SiteWeb)
        (account : AccountConfig) (store : TwitterDraftStore),
      (twitterPublishContent ⟨.ok (), .exn msg, uuid⟩ content site account true
          store).1.error
        = some s!"Erreur lors de la publication Twitter: {msg}")
    ∧ (∀ (creds : FacebookCreds) (msg : String) (content : FacebookPostOutput)
        (site : SiteWeb) (account : AccountConfig),
      (facebookPublishContent ⟨.ok creds, .exn msg⟩ content site account
          true).1.error
        = some s!"Erreur lors de la publication Facebook: {msg}") := by
  refine ⟨?_, ?_, ?_, ?_⟩
  · intro env content site account published store
    rcases env with ⟨creds, call, uuid⟩
    cases published
    · left; rfl
    · cases creds with
      | error e => right; rfl
      | ok u =>
        cases call with
        | posted tweetId => left; rfl
        | apiError code text => right; rfl
        | exn msg => right; rfl
  · intro env content site account published
    rcases env with ⟨creds, call⟩
    cases creds with
    | error e => right; rfl
    | ok c =>
      cases call with
      | ok postId => cases published <;> (left; rfl)
      | httpError code text => right; rfl
      | exn msg => right; rfl
  · intro msg uuid content site account store
    rfl
  · intro creds msg content site account
    rfl

-- === C5 ===

/-- A Facebook environment whose Graph API call succeeds with the id fb123. -/
def fbDraftEnv : FacebookPublisherEnv :=
  { creds := .ok { page_id := "page1" }, call := .ok "fb123" }

/-- A Facebook payload used by the C5 counterexample. -/
def fbDraftContent : FacebookPostOutput := { message := "bonjour" }

/-- C5 counterexample: a Facebook target with visibility draft
(published=False) still performs one external Graph API call, and the
outcome carries the externally assigned id fb123 rather than a locally
generated draft id — refuting the claim that a draft target never invokes
the external publish collaborator. -/
theorem C5_counterexample :
    (facebookPublishContent fbDraftEnv fbDraftContent .stuffgaming
        sampleAccount false).2 = 1
    ∧ (facebookPublishContent fbDraftEnv fbDraftContent .stuffgaming
        sampleAccount false).1.post_id = some "fb123"
    ∧ (facebookPublishContent fbDraftEnv fbDraftContent .stuffgaming
        sampleAccount false).1.status = "success" :=
  ⟨rfl, rfl, rfl⟩

/-- C5 amended: Twitter and Instagram draft targets never invoke the external
collaborator (zero external calls) and stage the content locally under a
locally generated twitter_draft_ / instagram_draft_ id; the Facebook draft
path instead performs the Graph API call (with published=False in the
payload) and the outcome id is the id assigned by the external service. -/
theorem C5_draft_staging :
    (∀ (env : TwitterPublisherEnv) (content : TwitterPostOutput)
        (site : SiteWeb) (account : AccountConfig)
        (store : TwitterDraftStore),
      (twitterPublishContent env content site account false store).2.2 = 0
        ∧ (twitterPublishContent env content site account false
            store).1.post_id = some ("twitter_draft_" ++ env.uuid8))
    ∧ (∀ (env : InstagramPublisherEnv) (content : FormattedContent)
        (site : SiteWeb) (account : AccountConfig) (ctype : ContentType)
        (store : InstagramDraftStore),
      (instagramPublishContent env content site account ctype false
          store).2.2 = 0
        ∧ (instagramPublishContent env content site account ctype false
            store).1.post_id
          = some ("instagram_draft_" ++ ctype.value ++ "_" ++ env.uuid8))
    ∧ (∀ (creds : FacebookCreds) (postId : String)
        (content : FacebookPostOutput) (site : SiteWeb)
        (account : AccountConfig),
      (facebookPublishContent ⟨.ok creds, .ok postId⟩ content site account
          false).2 = 1
        ∧ (facebookPublishContent ⟨.ok creds, .ok postId⟩ content site account
            false).1.post_id = some postId) := by
  refine ⟨?_, ?_, ?_⟩
  · intro env content site account store
    exact ⟨rfl, rfl⟩
  · intro env content site account ctype store
    exact ⟨rfl, rfl⟩
  · intro creds postId content site account
    exact ⟨rfl, rfl⟩

-- === C7 ===

/-- C7: deleting a draft id twice makes the second delete report failure and
leave the store unchanged (for both local draft stores), and the DELETE
endpoint turns that failure into a reported 404 error — never a crash — with
both stores unchanged. -/
theorem C7_second_delete_reported_not_found :
    (∀ (store : TwitterDraftStore) (draft_id : String),
      deleteTwitterDraft draft_id (deleteTwitterDraft draft_id store).2
        = (false, (deleteTwitterDraft draft_id store).2))
    ∧ (∀ (store : InstagramDraftStore) (draft_id : String),
      deleteInstagramDraft draft_id (deleteInstagramDraft draft_id store).2
        = (false, (deleteInstagramDraft draft_id store).2))
    ∧ (∀ (fbDelete : String → PublishResult) (twStore : TwitterDraftStore)
        (igStore : InstagramDraftStore) (draft_id : String),
      pyStartsWith draft_id "instagram_draft_" = false →
      pyStartsWith draft_id "twitter_draft_" = true →
      containsKey twStore draft_id = false →
      deleteDraftEndpoint fbDelete twStore igStore draft_id
        = (.error 404, twStore, igStore)) := by
  refine ⟨?_, ?_, ?_⟩
  · intro store draft_id
    by_cases h : containsKey store draft_id = true
    · have h2 : containsKey
          (store.filter (fun p => !decide (p.1 = draft_id))) draft_id
          = false := by
        simp [containsKey, lookupAssoc_filter_self]
      simp [deleteTwitterDraft, h, h2]
    · rw [Bool.not_eq_true] at h
      simp [deleteTwitterDraft, h]
  · intro store draft_id
    by_cases h : containsKey store draft_id = true
    · have h2 : containsKey
          (store.filter (fun p => !decide (p.1 = draft_id))) draft_id
          = false := by
        simp [containsKey, lookupAssoc_filter_self]
      simp [deleteInstagramDraft, h, h2]
    · rw [Bool.not_eq_true] at h
      simp [deleteInstagramDraft, h]
  · intro fbDelete twStore igStore draft_id hig htw hct
    simp [deleteDraftEndpoint, hig, htw, deleteTwitterDraft, hct]

/-- A one-entry Twitter draft store used by the C7 witness. -/
def twStore1 : TwitterDraftStore :=
  [("twitter_draft_aa",
    { tweet := "bonjour", site_web := .stuffgaming, account := "acc" })]

/-- Witness for C7: a concrete double delete and a concrete 404 from the
endpoint. -/
theorem C7_second_delete_reported_not_found_witness :
    deleteTwitterDraft "twitter_draft_aa"
        (deleteTwitterDraft "twitter_draft_aa" twStore1).2
      = (false, (deleteTwitterDraft "twitter_draft_aa" twStore1).2)
    ∧ deleteDraftEndpoint (fun _ => createErrorResult "facebook" "err") [] []
        "twitter_draft_aa"
      = (.error 404, [], []) :=
  ⟨C7_second_delete_reported_not_found.1 twStore1 "twitter_draft_aa",
    C7_second_delete_reported_not_found.2.2 _ [] [] "twitter_draft_aa"
      (by decide) (by decide) (by decide)⟩

-- === C8 ===

/-- C8: querying an unknown request id reports a 404 (RequestNotFound) error
instead of crashing or answering an empty success; querying right after
submission succeeds with a structured snapshot whose status is pending, and
submission itself answers accepted. -/
theorem C8_status_query (store : TaskStore) (request_id : String)
    (request : EnhancedPublicationRequest) :
    (lookupAssoc store request_id = none →
      getPublicationStatus store request_id = .error 404)
    ∧ getPublicationStatus (processPublication store request_id request).1
        request_id
      = .ok { request_id := request_id, status := .pending,
              platforms_results := [] }
    ∧ (processPublication store request_id request).2.status = "accepted" := by
  refine ⟨?_, ?_, rfl⟩
  · intro h
    simp [getPublicationStatus, h]
  · simp [getPublicationStatus, processPublication,
      lookupAssoc_insertAssoc_self]

/-- A request used by concrete runs. -/
def sampleRequest : EnhancedPublicationRequest :=
  { texte_source := "texte", site_web := .stuffgaming,
    platforms_config := [{ platform := .facebook, content_type := .post }] }

/-- Witness for C8 on the empty store. -/
theorem C8_status_query_witness :
    getPublicationStatus [] "rid" = .error 404
    ∧ getPublicationStatus (processPublication [] "rid" sampleRequest).1 "rid"
      = .ok { request_id := "rid", status := .pending,
              platforms_results := [] } :=
  ⟨(C8_status_query [] "rid" sampleRequest).1 rfl,
    (C8_status_query [] "rid" sampleRequest).2.1⟩

-- === C6 ===

/-- The mechanical-split fallback succeeds exactly when the required slide
count passes the output validator. -/
theorem carouselFallback_ok (content : String) (config : PlatformContentConfig)
    (imgs : List String) (gen : Bool)
    (hlo : 2 ≤ pyOrInt config.nb_slides 3)
    (hhi : pyOrInt config.nb_slides 3 ≤ 10) :
    carouselFallback content config imgs gen =
      .ok { slides := (pyRange (pyOrInt config.nb_slides 3)).map
              (fun i => s!"Point {i + 1}: {pyStrTake content 100}..."),
            legende := "📱 Swipe pour découvrir → "
              ++ String.intercalate " " (config.hashtags.getD []),
            hashtags := config.hashtags, images_urls := some imgs,
            images_generated := gen } := by
  have hlen : ((pyRange (pyOrInt config.nb_slides 3)).map
      (fun i => s!"Point {i + 1}: {pyStrTake content 100}...")).length
      = (pyOrInt config.nb_slides 3).toNat := by
    simp [pyRange]
  unfold carouselFallback mkInstagramCarouselOutput
  rw [if_neg]
  rw [hlen]
  omega

/-- C6 counterexample: with a malformed structured answer and a required
slide count of 1, the fallback path raises the slide-count validator error
instead of returning an output — refuting that the fallback never raises. -/
theorem C6_counterexample :
    formatInstagramCarousel oracleOkShort "base"
        { platform := .instagram, content_type := .carousel,
          nb_slides := some 1 }
        sampleAccount
      = .error "Le carrousel doit contenir entre 2 et 10 slides" := rfl

/-- C6 amended: when the structured answer is malformed, the formatter falls
back to the deterministic mechanical split into `nb_slides or 3` numbered
segments, and this fallback succeeds (raises nothing) whenever the required
count lies within the output validator's accepted 2..10 range; outside that
range the validator rejects the fallback slides and the error propagates. -/
theorem C6_carousel_fallback (oracle : LLMOracle) (content : String)
    (config : PlatformContentConfig) (account : AccountConfig) (j : String)
    (hgen : oracle.generateContent content = .ok j)
    (hparse : oracle.parseCarouselJson j = none)
    (hlo : 2 ≤ pyOrInt config.nb_slides 3)
    (hhi : pyOrInt config.nb_slides 3 ≤ 10) :
    ∃ out, formatInstagramCarousel oracle content config account = .ok out
      ∧ out.slides = (pyRange (pyOrInt config.nb_slides 3)).map
          (fun i => s!"Point {i + 1}: {pyStrTake content 100}...") := by
  have key : ∀ (imgs : List String) (gen : Bool),
      ∃ out, carouselFallback content config imgs gen = .ok out
        ∧ out.slides = (pyRange (pyOrInt config.nb_slides 3)).map
            (fun i => s!"Point {i + 1}: {pyStrTake content 100}...") := by
    intro imgs gen
    exact ⟨_, carouselFallback_ok content config imgs gen hlo hhi, rfl⟩
  simp only [formatInstagramCarousel, hgen, hparse]
  exact key _ _

/-- The base content used by the C6 witness. -/
def baseText : String := "base"

/-- Witness for C6 with the default slide count (nb_slides absent, so 3). -/
theorem C6_carousel_fallback_witness :
    (2 ≤ pyOrInt (none : Option Int) 3 ∧ pyOrInt (none : Option Int) 3 ≤ 10)
    ∧ ∃ out, formatInstagramCarousel oracleOkShort baseText
          { platform := .instagram, content_type := .carousel }
          sampleAccount
        = .ok out
      ∧ out.slides = (pyRange (pyOrInt (none : Option Int) 3)).map
          (fun i => s!"Point {i + 1}: {pyStrTake baseText 100}...") :=
  ⟨⟨by decide, by decide⟩,
    C6_carousel_fallback oracleOkShort baseText
      { platform := .instagram, content_type := .carousel } sampleAccount
      "pas du json" rfl rfl (by decide) (by decide)⟩

-- === C2 ===

/-- The duplicated target configuration of Scenario C. -/
def dupConfig : PlatformContentConfig :=
  { platform := .twitter, content_type := .post }

/-- A request with two identical (twitter, post) targets. -/
def dupRequest : EnhancedPublicationRequest :=
  { texte_source := "texte", site_web := .stuffgaming,
    platforms_config := [dupConfig, dupConfig] }

/-- C2 counterexample: a request with two (twitter, post) targets is accepted
at submission (no validation error), the whole pipeline records no error, and
formatting silently collapses the duplicates into a single entry with a
single publication result and final step completed — refuting the claimed
rejection at submission. -/
theorem C2_counterexample :
    (processPublication [] "rid" dupRequest).2.status = "accepted"
    ∧ (executeWorkflow oracleOkShort envTwitterOk
        dupRequest).formatted_content.length = 1
    ∧ (executeWorkflow oracleOkShort envTwitterOk dupRequest).errors = []
    ∧ (executeWorkflow oracleOkShort envTwitterOk
        dupRequest).publication_results.length = 1
    ∧ (executeWorkflow oracleOkShort envTwitterOk dupRequest).current_step
      = "completed" :=
  ⟨rfl, rfl, rfl, rfl, rfl⟩

/-- C2 amended: duplicate (platform, content_type) targets are not rejected —
submission always answers accepted — and the formatting stage keys its dict
by platform_contenttype, so all targets sharing one key collapse by overwrite
into at most one formatted entry. -/
theorem C2_duplicate_targets_overwrite (store : TaskStore)
    (request_id : String) (req : EnhancedPublicationRequest) :
    (processPublication store request_id req).2.status = "accepted"
    ∧ ∀ (oracle : LLMOracle) (content : String) (k : String),
        (∀ c ∈ req.platforms_config, configKey c = k) →
        (formatLoop oracle req.site_web content req.platforms_config []
          []).1.length ≤ 1 := by
  refine ⟨rfl, ?_⟩
  intro oracle content k hk
  refine formatLoop_sameKey_length oracle req.site_web content k
    req.platforms_config [] [] hk ?_ ?_
  · intro p hp
    cases hp
  · simp

/-- Witness for C2 at the duplicated (twitter, post) request. -/
theorem C2_duplicate_targets_overwrite_witness :
    (processPublication [] "rid" dupRequest).2.status = "accepted"
    ∧ (formatLoop oracleOkShort dupRequest.site_web "base"
        dupRequest.platforms_config [] []).1.length ≤ 1 :=
  ⟨(C2_duplicate_targets_overwrite [] "rid" dupRequest).1,
    (C2_duplicate_targets_overwrite [] "rid" dupRequest).2 oracleOkShort
      "base" "twitter_post" (by decide)⟩

-- === C1 ===

/-- A three-target request: facebook succeeds, twitter publication fails at
the API, linkedin has no configured account. -/
def mixedRequest : EnhancedPublicationRequest :=
  { texte_source := "texte", site_web := .stuffgaming,
    platforms_config := [{ platform := .facebook }, { platform := .twitter },
      { platform := .linkedin }] }

/-- C1 counterexample: generation succeeded, targets were admitted, the
publish outcomes are mixed (facebook success, twitter failed), yet the final
status is failed because the excluded linkedin target left an error string —
refuting that a request with mixed outcomes is completed, never failed, and
that failed occurs only on generation failure or zero admitted targets. -/
theorem C1_counterexample :
    (executeWorkflow oracleOkShort envTwitterFail
        mixedRequest).content_generated = some "base"
    ∧ (lookupAssoc (executeWorkflow oracleOkShort envTwitterFail
          mixedRequest).publication_results "facebook_post").map
        (fun r => r.status) = some "success"
    ∧ (lookupAssoc (executeWorkflow oracleOkShort envTwitterFail
          mixedRequest).publication_results "twitter_post").map
        (fun r => r.status) = some "failed"
    ∧ (executeWorkflow oracleOkShort envTwitterFail mixedRequest).current_step
      = "failed" :=
  ⟨rfl, rfl, rfl, rfl⟩

/-- C1 amended: the final step is completed exactly when no error string was
recorded and at least one publication result exists; any recorded error —
including a target-scoped account-resolution or formatting error — or an
empty result dict marks the whole request failed.  Publish failures captured
inside outcome records leave the error list untouched, so mixed publish
outcomes alone still finish completed. -/
theorem C1_aggregate_status (oracle : LLMOracle) (env : PublishEnv)
    (request : EnhancedPublicationRequest) :
    (executeWorkflow oracle env request).current_step =
      (if (executeWorkflow oracle env request).errors = []
          ∧ (executeWorkflow oracle env request).publication_results ≠ []
       then "completed" else "failed") := by
  unfold executeWorkflow
  obtain ⟨hE, hP, _, _⟩ := finalizeResultsNode_fields
    (publishContentNode env
      (formatContentNode oracle (generateContentNode oracle
        (initialState request))))
  rw [hE, hP]
  exact finalizeResultsNode_step _

-- === C3 ===

/-- A single-target request whose (stuffgaming, linkedin) account lookup
fails: the default mapping configures no LinkedIn account. -/
def linkedinRequest : EnhancedPublicationRequest :=
  { texte_source := "texte", site_web := .stuffgaming,
    platforms_config := [{ platform := .linkedin, content_type := .post }] }

/-- C3 counterexample: for the linkedin target whose account lookup fails,
the stored final result has status failed and an EMPTY outcome list — there
is no failed per-target outcome for the excluded target, refuting the claim
that the final result contains one; formatting was indeed never entered. -/
theorem C3_counterexample :
    getPublicationStatus
        (processPublicationRequest oracleOkShort envTwitterOk
          (processPublication [] "rid" linkedinRequest).1 "rid"
          linkedinRequest)
        "rid"
      = .ok { request_id := "rid", status := .failed, platforms_results := [] }
    ∧ (formatContentNode oracleOkShort
        (generateContentNode oracleOkShort
          (initialState linkedinRequest))).formatted_content = [] :=
  ⟨rfl, rfl⟩

/-- C3 amended: when generation produced a (non-empty) base content, a target
whose (site, platform) account resolution fails never enters formatting — no
formatted entry and no publication result is created under its key — and a
distinct account-validation error string is recorded; but instead of a failed
per-target outcome in the final result, the recorded error marks the whole
request failed.  (For an empty base content the falsy-content early return
skips the whole stage and records only the no-content error.) -/
theorem C3_unresolved_account_excluded (oracle : LLMOracle) (env : PublishEnv)
    (request : EnhancedPublicationRequest) (c : PlatformContentConfig)
    (e b : String) (hc : c ∈ request.platforms_config)
    (hval : validate_account_exists request.site_web c.platform = .error e)
    (hgen : oracle.generateBaseContent request = .ok b) (hb : b ≠ "") :
    lookupAssoc (executeWorkflow oracle env request).formatted_content
        (configKey c) = none
    ∧ lookupAssoc (executeWorkflow oracle env request).publication_results
        (configKey c) = none
    ∧ s!"Erreur validation compte {c.platform.value}: {e}"
        ∈ (executeWorkflow oracle env request).errors
    ∧ (executeWorkflow oracle env request).current_step = "failed" := by
  have hrun : executeWorkflow oracle env request =
      finalizeResultsNode
        { request := request, content_generated := some b,
          formatted_content := (formatLoop oracle request.site_web b
            request.platforms_config [] []).1,
          publication_results := publishLoop env
            (formatLoop oracle request.site_web b
              request.platforms_config [] []).1 [],
          errors := (formatLoop oracle request.site_web b
            request.platforms_config [] []).2,
          current_step := "content_published" } := by
    unfold executeWorkflow
    simp [generateContentNode, hgen, initialState, formatContentNode, hb,
      publishContentNode]
  have hcfgs : ∀ c2 ∈ request.platforms_config, configKey c2 = configKey c →
      ∃ e2, validate_account_exists request.site_web c2.platform
        = .error e2 := by
    intro c2 hc2 hk2
    have hpeq : c2.platform = c.platform :=
      keyDeterminesPlatform c2.platform c.platform c2.content_type
        c.content_type hk2
    rw [hpeq]
    exact ⟨e, hval⟩
  have hfmt : lookupAssoc (formatLoop oracle request.site_web b
      request.platforms_config [] []).1 (configKey c) = none :=
    formatLoop_lookup_none oracle request.site_web b (configKey c)
      request.platforms_config [] [] rfl hcfgs
  have herr : s!"Erreur validation compte {c.platform.value}: {e}"
      ∈ (formatLoop oracle request.site_web b
        request.platforms_config [] []).2 :=
    formatLoop_error_of_invalid oracle request.site_web b c e hval
      request.platforms_config [] [] hc
  have hernil : (formatLoop oracle request.site_web b
      request.platforms_config [] []).2 ≠ [] :=
    List.ne_nil_of_mem herr
  obtain ⟨hE, hP, hF, hG⟩ := finalizeResultsNode_fields
    { request := request, content_generated := some b,
      formatted_content := (formatLoop oracle request.site_web b
        request.platforms_config [] []).1,
      publication_results := publishLoop env
        (formatLoop oracle request.site_web b
          request.platforms_config [] []).1 [],
      errors := (formatLoop oracle request.site_web b
        request.platforms_config [] []).2,
      current_step := "content_published" }
  refine ⟨?_, ?_, ?_, ?_⟩
  · rw [hrun, hF]
    exact hfmt
  · rw [hrun, hP]
    exact publishLoop_lookup_none env (configKey c) _ [] hfmt rfl
  · rw [hrun, hE]
    exact herr
  · rw [hrun, finalizeResultsNode_step]
    rw [if_neg]
    rintro ⟨h1, _⟩
    exact hernil h1

/-- Witness for C3 at the linkedin target of linkedinRequest. -/
theorem C3_unresolved_account_excluded_witness :
    lookupAssoc (executeWorkflow oracleOkShort envTwitterOk
        linkedinRequest).formatted_content "linkedin_post" = none
    ∧ lookupAssoc (executeWorkflow oracleOkShort envTwitterOk
        linkedinRequest).publication_results "linkedin_post" = none
    ∧ s!"Erreur validation compte linkedin: Aucun compte configuré pour stuffgaming.fr sur linkedin"
        ∈ (executeWorkflow oracleOkShort envTwitterOk linkedinRequest).errors
    ∧ (executeWorkflow oracleOkShort envTwitterOk
        linkedinRequest).current_step = "failed" :=
  C3_unresolved_account_excluded oracleOkShort envTwitterOk linkedinRequest
    { platform := .linkedin, content_type := .post }
    "Aucun compte configuré pour stuffgaming.fr sur linkedin" "base"
    (by decide) (by decide) rfl (by decide)
